import Mathlib

/-!
Shallow embedding of the Live-Language-Translator backend
(`backend/main.py`, `backend/stt.py`, `backend/translation.py`).

Python dictionaries that flow through the pipeline are modelled as records
of optional fields (a `none` field models an absent key, matching
`dict.get`).  External services (DeepL translation, the LLM suggestion
call, the Deepgram network send) are modelled by explicit outcome values
passed to each step, matching the spec's black-box service contracts.
Stateful coroutine loops are modelled as step functions producing an
explicit event trace.
-/

namespace LLT

/-- A conversation-history turn, as appended by `process_stt_output`
(`main.py` line 226): `{"speaker": ..., "original": ..., "english": ""}`. -/
structure Turn where
  speaker : String
  original : String
  english : String
deriving Repr, DecidableEq

/-- A reply-suggestion value as stored in `item["replies"]`: either a plain
string marker (e.g. `"LLM Error"`) or an `{original, english}` object. -/
inductive Reply where
  | text (s : String)
  | pair (original english : String)
deriving Repr, DecidableEq

/-- The dictionary shape of an STT output item as read and mutated by
`process_stt_output`.  Each field is the value at the corresponding key,
`none` when the key is absent.  `speech_final` stands for the extra keys
produced by `stt.py` that `process_stt_output` never reads; it lets the
model distinguish the full item from the reduced broadcast copy. -/
structure Item where
  type_ : Option String
  is_final : Option Bool
  transcript : Option String
  speaker : Option String
  english : Option String
  detected_language : Option String
  replies : Option (List Reply)
  speech_final : Option Bool
deriving Repr, DecidableEq

/-- A value dequeued from the STT output queue: Python `None`, a non-dict
value, or a dict (whose `'type'` key is present iff `type_` is `some`). -/
inductive QItem where
  | pynone
  | nondict
  | dict (it : Item)
deriving Repr, DecidableEq

/-- Outcome of `await translate_text(source_text, return_detected_lang=True)`:
either it returns a value (`none` models Python `None`, which the caller's
tuple-unpacking turns into a caught `TypeError`) or it raises. -/
inductive TranslateOutcome where
  | value (v : Option (String × String))
  | raises
deriving Repr, DecidableEq

/-- Outcome of `await get_llm_suggestions(...)`: a returned value
(`none` models Python `None`) or a raised exception. -/
inductive SuggestOutcome where
  | value (v : Option (List Reply))
  | raises
deriving Repr, DecidableEq

/-- `MAX_HISTORY_LENGTH` from `main.py` line 49. -/
def MAX_HISTORY_LENGTH : Nat := 10

/-- The three `item.setdefault` calls at `main.py` lines 210-212. -/
def applyDefaults (it : Item) : Item :=
  { it with
    english := some (it.english.getD "")
    replies := some (it.replies.getD [])
    detected_language := some (it.detected_language.getD "") }

/-- The reduced broadcast dict built at `main.py` lines 274-282 from the
(post-`setdefault`) item. -/
def mkReduced (it : Item) : Item :=
  { type_ := it.type_
    is_final := it.is_final
    transcript := it.transcript
    speaker := it.speaker
    detected_language := it.detected_language
    english := it.english
    replies := some (it.replies.getD [])
    speech_final := none }

/-- Overwrite the `english` field of the last turn
(`conversation_history[-1]["english"] = english_translation`,
`main.py` line 244). -/
def setLastEnglish : List Turn → String → List Turn
  | [], _ => []
  | [t], e => [{ t with english := e }]
  | t :: t' :: ts, e => t :: setLastEnglish (t' :: ts) e

/-- The history trim at `main.py` lines 229-230:
`if len(conversation_history) > MAX_HISTORY_LENGTH: conversation_history.pop(0)`. -/
def trimHistory (h1 : List Turn) : List Turn :=
  if h1.length > MAX_HISTORY_LENGTH then h1.tail else h1

/-- The guarded last-turn update at `main.py` lines 243-244:
`if conversation_history: conversation_history[-1]["english"] = english_translation`. -/
def updateLastIfNonempty (h : List Turn) (e : String) : List Turn :=
  if h ≠ [] then setLastEnglish h e else h

/-- The observable effects of one iteration of the `process_stt_output`
loop (`main.py` lines 185-291). -/
structure ProcEffects where
  translateCalled : Bool
  suggestCalled : Bool
  history : List Turn
  broadcasts : List Item
  exited : Bool
deriving Repr, DecidableEq

/-- One iteration of the `process_stt_output` loop (`main.py` lines
185-291), from dequeue of `qi` to (possibly) broadcast.  `enabled` is the
value of `backend_processing_enabled` read at line 192; `history` is
`conversation_history` at entry; `tr` and `sg` are the outcomes of the
translation and suggestion service calls (used only if those calls are
reached). -/
def processItem (enabled : Bool) (history : List Turn) (qi : QItem)
    (tr : TranslateOutcome) (sg : SuggestOutcome) : ProcEffects :=
  -- line 192: `if not backend_processing_enabled: continue`
  if !enabled then
    { translateCalled := false, suggestCalled := false,
      history := history, broadcasts := [], exited := false }
  else
    match qi with
    -- line 196: `if item is None: break`
    | QItem.pynone =>
      { translateCalled := false, suggestCalled := false,
        history := history, broadcasts := [], exited := true }
    -- line 202: `if not isinstance(item, dict) or 'type' not in item: continue`
    | QItem.nondict =>
      { translateCalled := false, suggestCalled := false,
        history := history, broadcasts := [], exited := false }
    | QItem.dict it0 =>
      if it0.type_.isNone then
        { translateCalled := false, suggestCalled := false,
          history := history, broadcasts := [], exited := false }
      else
        -- lines 210-212: setdefault english / replies / detected_language
        let it := applyDefaults it0
        -- line 215: `if item.get("type") == "transcript_data" and item.get("is_final")`
        if it.type_ = some "transcript_data" && it.is_final.getD false then
          -- line 216: `transcript_text = item.get("transcript", "")`
          let transcript_text := it.transcript.getD ""
          if transcript_text = "" then
            -- line 218: empty final transcript: skip processing, still broadcast (line 287)
            { translateCalled := false, suggestCalled := false,
              history := history, broadcasts := [it], exited := false }
          else
            -- lines 221-222
            let source_text := transcript_text
            let speaker_label := it.speaker.getD "Unknown Speaker"
            -- lines 226-230: append turn, trim history
            let turn : Turn := { speaker := speaker_label, original := source_text, english := "" }
            let h2 := trimHistory (history ++ [turn])
            -- lines 232-237: translation call; a raise or a returned None both
            -- leave english_translation = None, detected_lang_code = "error"
            let eng? : Option (String × String) :=
              match tr with
              | TranslateOutcome.value v => v
              | TranslateOutcome.raises => none
            match eng? with
            | some (e, d) =>
              -- lines 240-241
              let it1 := { it with english := some e, detected_language := some d }
              -- lines 243-244
              let h3 := updateLastIfNonempty h2 e
              -- lines 246-261: suggestion call
              let replies : List Reply :=
                match sg with
                | SuggestOutcome.raises => [Reply.text "LLM Error"]
                | SuggestOutcome.value none => [Reply.text "LLM Issue"]
                | SuggestOutcome.value (some l) => l
              let it2 := { it1 with replies := some replies }
              { translateCalled := true, suggestCalled := true,
                history := h3, broadcasts := [it2], exited := false }
            | none =>
              -- lines 263-266: translation failure markers, no suggestion call
              let it1 := { it with
                english := some "Translation Error",
                detected_language := some "error",
                replies := some [Reply.text "Translation Failed"] }
              { translateCalled := true, suggestCalled := false,
                history := h2, broadcasts := [it1], exited := false }
        else
          -- lines 269-283: non-final / non-"transcript_data" item:
          -- broadcast the reduced copy (line 283), then the full item (line 287)
          { translateCalled := false, suggestCalled := false,
            history := history, broadcasts := [mkReduced it, it], exited := false }

/-! ## The audio-forwarding loop (`main.py` `send_audio_to_stt`, lines 322-342) -/

/-- An audio chunk (the raw PCM bytes put on `audio_queue_global`). -/
abbrev AudioChunk := List Nat

/-- Result of one iteration of the `send_audio_to_stt` loop: the remaining
audio queue, the chunks forwarded to `stt_client.send_audio`, and whether
the loop broke out. -/
structure SendStepResult where
  queue : List (Option AudioChunk)
  sent : List AudioChunk
  stopped : Bool
deriving Repr, DecidableEq

/-- One iteration of the `send_audio_to_stt` loop (`main.py` lines
324-336).  `enabled1` is `backend_processing_enabled` read at line 326;
`enabled2` is the same flag re-read at line 334 (it can change across the
`await audio_q.get()` suspension point); `sttPresent` is the truthiness of
`stt_c`.  Queue entries of `none` model the Python `None` stop signal. -/
def sendAudioStep (enabled1 enabled2 : Bool) (sttPresent : Bool)
    (q : List (Option AudioChunk)) : SendStepResult :=
  -- lines 326-328: when disabled, sleep and continue without touching the queue
  if !enabled1 then
    { queue := q, sent := [], stopped := false }
  else
    match q with
    -- `await audio_q.get()` suspends on an empty queue: no effect
    | [] => { queue := [], sent := [], stopped := false }
    -- lines 331-333: a dequeued None breaks the loop
    | none :: rest => { queue := rest, sent := [], stopped := true }
    -- lines 334-336: double-check `stt_c and backend_processing_enabled`, then send
    | some c :: rest =>
      { queue := rest,
        sent := if sttPresent && enabled2 then [c] else [],
        stopped := false }

/-! ## The control plane (`main.py` `ws_handler`, lines 109-179, and
`clear_asyncio_queue`, lines 94-107) -/

/-- The global backend state touched by `ws_handler`.  `sttPresent` is
whether `stt_client_global` is set (non-None), `audioQPresent` whether
`audio_queue_global` is set; both are set in `main()` before the
WebSocket server starts. -/
structure BackendState where
  enabled : Bool
  sttPresent : Bool
  audioQPresent : Bool
  audioQ : List (Option AudioChunk)
  sttOutQ : List QItem
  settings : List (String × String)
deriving Repr, DecidableEq

/-- A control message parsed from a client (`main.py` lines 117-171).
`other` covers unrecognized message types. -/
inductive ControlMsg where
  | settings (s : Option (List (String × String)))
  | start_processing
  | stop_processing
  | request_backend_status
  | other
deriving Repr, DecidableEq

/-- An observable side effect of handling one control message, in the
order the handler performs it. -/
inductive Event where
  | setEnabled (b : Bool)
  | sttStart
  | sttStop
  | clearAudioQueue
  | clearSttOutQueue
  | sendAll (isActive : Bool)
  | sendRequester (isActive : Bool)
  | settingsUpdated
deriving Repr, DecidableEq

/-- Python `dict` assignment `d[k] = v` on an association list. -/
def dictSet (d : List (String × String)) (k v : String) : List (String × String) :=
  if d.any (fun p => p.1 = k) then
    d.map (fun p => if p.1 = k then (k, v) else p)
  else
    d ++ [(k, v)]

/-- Python `app_settings.update(new_settings)` (`main.py` line 123). -/
def dictUpdate (d new : List (String × String)) : List (String × String) :=
  new.foldl (fun acc p => dictSet acc p.1 p.2) d

/-- Handling of one parsed control message by `ws_handler` (`main.py`
lines 117-171), returning the new backend state and the ordered trace of
side effects.  `clear_asyncio_queue` (lines 94-107) empties a queue, so a
cleared queue becomes `[]`. -/
def handleMessage (s : BackendState) (m : ControlMsg) : BackendState × List Event :=
  match m with
  | ControlMsg.settings new =>
    -- lines 120-124: `if new_settings:` (None and {} are falsy)
    match new with
    | none => (s, [])
    | some ns =>
      if ns = [] then (s, [])
      else ({ s with settings := dictUpdate s.settings ns }, [Event.settingsUpdated])
  | ControlMsg.start_processing =>
    -- lines 126-136
    if !s.enabled then
      ({ s with enabled := true },
       [Event.setEnabled true]
         ++ (if s.sttPresent then [Event.sttStart] else [])
         ++ [Event.sendAll true])
    else
      (s, [Event.sendRequester s.enabled])
  | ControlMsg.stop_processing =>
    -- lines 138-165
    if s.enabled then
      ({ s with
          enabled := false
          audioQ := if s.audioQPresent then [] else s.audioQ
          sttOutQ := if s.sttPresent then [] else s.sttOutQ },
       [Event.setEnabled false]
         ++ (if s.sttPresent then [Event.sttStop] else [])
         ++ (if s.audioQPresent then [Event.clearAudioQueue] else [])
         ++ (if s.sttPresent then [Event.clearSttOutQueue] else [])
         ++ [Event.sendAll false])
    else
      (s, [Event.sendRequester s.enabled])
  | ControlMsg.request_backend_status =>
    -- lines 167-168
    (s, [Event.sendRequester s.enabled])
  | ControlMsg.other =>
    -- lines 170-171: logged and ignored
    (s, [])

/-! ## The recognition session (`stt.py` `DeepgramSTT`) -/

/-- The `DeepgramSTT` state visible to `send_audio`: the `_is_connected`
flag and whether `self.dg_connection` is set (it always is after
`__init__`). -/
structure SttState where
  isConnected : Bool
  connPresent : Bool
deriving Repr, DecidableEq

/-- Outcome of the underlying `await self.dg_connection.send(chunk)`. -/
inductive NetSend where
  | ok
  | err
deriving Repr, DecidableEq

/-- Result of a `send_audio` call: the new session state, whether the
network send was attempted, and whether the call raised to the caller. -/
structure SendAudioResult where
  state : SttState
  attempted : Bool
  raised : Bool
deriving Repr, DecidableEq

/-- `DeepgramSTT.send_audio` (`stt.py` lines 134-147).  Any exception from
the network send is caught (lines 139-143): the `_is_connected` flag is
flipped to `False` and nothing propagates to the caller. -/
def sendAudio (s : SttState) (net : NetSend) : SendAudioResult :=
  if s.isConnected && s.connPresent then
    match net with
    | NetSend.ok => { state := s, attempted := true, raised := false }
    | NetSend.err =>
      { state := { s with isConnected := false }, attempted := true, raised := false }
  else
    { state := s, attempted := false, raised := false }

/-- An observable event of the `DeepgramSTT._run` supervising loop. -/
inductive RunEvent where
  | connectAttempt (ok : Bool)
  | sleep (secs : Nat)
  | taskExit
  | disconnectCleanup
deriving Repr, DecidableEq

/-- One iteration of the `while True` loop in `DeepgramSTT._run`
(`stt.py` lines 283-294).  `connected` is the `_is_connected` flag at the
top of the iteration (set asynchronously by the `_on_open` / `_on_error` /
`_on_close` callbacks); `connectOk` is the outcome of `self._connect()`
if the iteration attempts one. -/
def runIter (connected : Bool) (connectOk : Bool) : List RunEvent :=
  if !connected then
    [RunEvent.sleep 5, RunEvent.connectAttempt connectOk]
      ++ (if connectOk then [] else [RunEvent.sleep 10])
  else
    [RunEvent.sleep 5]

/-- The `DeepgramSTT._run` task (`stt.py` lines 274-301) as an event
trace.  `initialOk` is the outcome of the initial `self._connect()` at
line 278; if it fails the task returns at line 280 (before the `try`
block, so without the `finally` disconnect).  Otherwise the loop runs;
`iters` lists, per observed iteration, the `_is_connected` flag at the
top and the outcome of a connect attempt (used when disconnected), and
the trace ends with the `finally` disconnect when the task is cancelled. -/
def dgRun (initialOk : Bool) (iters : List (Bool × Bool)) : List RunEvent :=
  RunEvent.connectAttempt initialOk ::
    (if initialOk then
      (iters.map (fun p => runIter p.1 p.2)).flatten ++ [RunEvent.disconnectCleanup]
    else
      [RunEvent.taskExit])

/-! ## Translation (`translation.py` `translate_text`, lines 39-72) -/

/-- Outcome of the DeepL network call `translator.translate_text(...)`. -/
inductive DeepLOutcome where
  | ok (text detectedLang : String)
  | deepLError
  | otherError
deriving Repr, DecidableEq

/-- A value returned by `translate_text`: a bare string, a
`(translation, detected_language)` pair, or Python `None`. -/
inductive TransValue where
  | str (s : String)
  | pair (s d : String)
  | pynone
deriving Repr, DecidableEq

/-- `translate_text` (`translation.py` lines 39-72): the returned value
and whether the network call was performed.  `translatorInit` is whether
the module-level `translator` was initialized (non-None). -/
def translate_text (translatorInit : Bool) (text : String)
    (return_detected_lang : Bool) (net : DeepLOutcome) : TransValue × Bool :=
  -- lines 52-54: `if not translator: return None`
  if !translatorInit then (TransValue.pynone, false)
  -- lines 55-57: `if not text or not text.strip(): return ("", "") if ... else ""`
  else if text = "" || text.trim = "" then
    ((if return_detected_lang then TransValue.pair "" "" else TransValue.str ""), false)
  else
    -- lines 59-72
    match net with
    | DeepLOutcome.ok t d =>
      ((if return_detected_lang then TransValue.pair t d else TransValue.str t), true)
    | DeepLOutcome.deepLError => (TransValue.pynone, true)
    | DeepLOutcome.otherError => (TransValue.pynone, true)

/-! ## Theorems -/

/-- **C4.** For every finalized transcript with non-empty text, if the
translation stage fails (raises or returns `None`), the broadcast result
has `english == "Translation Error"`, `detected_language == "error"` and
`replies == ["Translation Failed"]`, the suggestion stage is not invoked,
and the record is still broadcast (exactly one broadcast). -/
theorem C4_translation_failure_degrades
    (h : List Turn) (it : Item) (tr : TranslateOutcome) (sg : SuggestOutcome)
    (s : String)
    (hty : it.type_ = some "transcript_data") (hfin : it.is_final = some true)
    (htr : it.transcript = some s) (hne : s ≠ "")
    (hfail : tr = TranslateOutcome.raises ∨ tr = TranslateOutcome.value none) :
    ∃ b : Item,
      (processItem true h (QItem.dict it) tr sg).broadcasts = [b] ∧
      b.english = some "Translation Error" ∧
      b.detected_language = some "error" ∧
      b.replies = some [Reply.text "Translation Failed"] ∧
      (processItem true h (QItem.dict it) tr sg).suggestCalled = false ∧
      (processItem true h (QItem.dict it) tr sg).translateCalled = true := by
  rcases hfail with rfl | rfl <;>
    · refine ⟨{ (applyDefaults it) with
          english := some "Translation Error"
          detected_language := some "error"
          replies := some [Reply.text "Translation Failed"] }, ?_, rfl, rfl, rfl, ?_, ?_⟩ <;>
        simp [processItem, applyDefaults, hty, hfin, htr, hne]

/-- Closed witness for C4 at a concrete item. -/
theorem C4_translation_failure_degrades_witness :
    ∃ b : Item,
      (processItem true []
        (QItem.dict ⟨some "transcript_data", some true, some "hola", some "0",
          none, none, none, some false⟩)
        TranslateOutcome.raises (SuggestOutcome.value (some []))).broadcasts = [b] ∧
      b.english = some "Translation Error" ∧
      b.detected_language = some "error" ∧
      b.replies = some [Reply.text "Translation Failed"] ∧
      (processItem true []
        (QItem.dict ⟨some "transcript_data", some true, some "hola", some "0",
          none, none, none, some false⟩)
        TranslateOutcome.raises (SuggestOutcome.value (some []))).suggestCalled = false ∧
      (processItem true []
        (QItem.dict ⟨some "transcript_data", some true, some "hola", some "0",
          none, none, none, some false⟩)
        TranslateOutcome.raises (SuggestOutcome.value (some []))).translateCalled = true :=
  C4_translation_failure_degrades [] _ _ _ "hola" rfl rfl rfl (by decide) (Or.inl rfl)

/-- **C9.** For every finalized transcript whose translation succeeds and
whose suggestion call returns the empty list, the broadcast result carries
the translated text in `english` and `replies == []` (the empty list is
preserved, not replaced by an error marker), and the record is still
broadcast (exactly one broadcast). -/
theorem C9_empty_suggestions_preserved
    (h : List Turn) (it : Item) (e d : String) (s : String)
    (hty : it.type_ = some "transcript_data") (hfin : it.is_final = some true)
    (htr : it.transcript = some s) (hne : s ≠ "") :
    ∃ b : Item,
      (processItem true h (QItem.dict it)
        (TranslateOutcome.value (some (e, d)))
        (SuggestOutcome.value (some []))).broadcasts = [b] ∧
      b.english = some e ∧
      b.replies = some ([] : List Reply) ∧
      (processItem true h (QItem.dict it)
        (TranslateOutcome.value (some (e, d)))
        (SuggestOutcome.value (some []))).suggestCalled = true := by
  refine ⟨{ (applyDefaults it) with
      english := some e
      detected_language := some d
      replies := some ([] : List Reply) }, ?_, rfl, rfl, ?_⟩ <;>
    simp [processItem, applyDefaults, hty, hfin, htr, hne]

/-- Closed witness for C9 at a concrete item. -/
theorem C9_empty_suggestions_preserved_witness :
    ∃ b : Item,
      (processItem true []
        (QItem.dict ⟨some "transcript_data", some true, some "ciao", none,
          none, none, none, some true⟩)
        (TranslateOutcome.value (some ("hello", "IT")))
        (SuggestOutcome.value (some []))).broadcasts = [b] ∧
      b.english = some "hello" ∧
      b.replies = some ([] : List Reply) ∧
      (processItem true []
        (QItem.dict ⟨some "transcript_data", some true, some "ciao", none,
          none, none, none, some true⟩)
        (TranslateOutcome.value (some ("hello", "IT")))
        (SuggestOutcome.value (some []))).suggestCalled = true :=
  C9_empty_suggestions_preserved [] _ "hello" "IT" "ciao" rfl rfl rfl (by decide)

/-- **C10.** Every dequeued dict with a `'type'` key that is not a final
`"transcript_data"` record, processed while processing is enabled, is
broadcast twice: first as the reduced copy of its fields, then as the full
(post-`setdefault`) item. -/
theorem C10_nonfinal_broadcast_twice
    (h : List Turn) (it : Item) (tr : TranslateOutcome) (sg : SuggestOutcome)
    (hty : it.type_.isSome = true)
    (hnot : (it.type_ = some "transcript_data" && it.is_final.getD false) = false) :
    (processItem true h (QItem.dict it) tr sg).broadcasts
      = [mkReduced (applyDefaults it), applyDefaults it] ∧
    (processItem true h (QItem.dict it) tr sg).broadcasts.length = 2 := by
  have h1 : it.type_.isNone = false := by
    cases hx : it.type_ <;> simp_all
  constructor <;> simp [processItem, applyDefaults, mkReduced, h1, hnot]

/-- Closed witness for C10 at a concrete interim-result item. -/
theorem C10_nonfinal_broadcast_twice_witness :
    (processItem true []
        (QItem.dict ⟨some "transcript_data", some false, some "par", none,
          none, none, none, some false⟩)
        TranslateOutcome.raises SuggestOutcome.raises).broadcasts
      = [mkReduced (applyDefaults ⟨some "transcript_data", some false, some "par", none,
          none, none, none, some false⟩),
         applyDefaults ⟨some "transcript_data", some false, some "par", none,
          none, none, none, some false⟩] ∧
    (processItem true []
        (QItem.dict ⟨some "transcript_data", some false, some "par", none,
          none, none, none, some false⟩)
        TranslateOutcome.raises SuggestOutcome.raises).broadcasts.length = 2 :=
  C10_nonfinal_broadcast_twice [] _ _ _ rfl (by decide)

/-- **C7.** For every audio chunk passed to `send_audio` while the session
is marked connected, a failing network send is never raised to the caller:
`send_audio` returns normally (no exception propagates) and flips the
`_is_connected` flag to `false`; the supervising loop's next iteration,
observing the flag false, performs a reconnect attempt. -/
theorem C7_send_failure_flips_state
    (s : SttState) (hc : s.isConnected = true) (hp : s.connPresent = true) :
    (sendAudio s NetSend.err).raised = false ∧
    (sendAudio s NetSend.err).state.isConnected = false ∧
    (sendAudio s NetSend.err).attempted = true ∧
    (∀ o : Bool,
      RunEvent.connectAttempt o ∈ runIter (sendAudio s NetSend.err).state.isConnected o) := by
  refine ⟨by simp [sendAudio, hc, hp], by simp [sendAudio, hc, hp],
    by simp [sendAudio, hc, hp], ?_⟩
  intro o
  simp [sendAudio, hc, hp, runIter]

/-- Closed witness for C7 at a concrete connected state. -/
theorem C7_send_failure_flips_state_witness :
    (sendAudio ⟨true, true⟩ NetSend.err).raised = false ∧
    (sendAudio ⟨true, true⟩ NetSend.err).state.isConnected = false ∧
    (sendAudio ⟨true, true⟩ NetSend.err).attempted = true ∧
    (∀ o : Bool,
      RunEvent.connectAttempt o ∈ runIter (sendAudio ⟨true, true⟩ NetSend.err).state.isConnected o) :=
  C7_send_failure_flips_state ⟨true, true⟩ rfl rfl

/-! ### C1: behaviour while `backend_processing_enabled` is false -/

/-- Claim C1 as stated: while the flag is false, dequeued STT records are
discarded with no translation, suggestion, history mutation or broadcast,
AND audio frames are likewise dropped rather than left queued (a pending
frame is removed from the audio queue without being forwarded). -/
def C1ClaimAsStated : Prop :=
  (∀ (h : List Turn) (qi : QItem) (tr : TranslateOutcome) (sg : SuggestOutcome),
      (processItem false h qi tr sg).translateCalled = false ∧
      (processItem false h qi tr sg).suggestCalled = false ∧
      (processItem false h qi tr sg).history = h ∧
      (processItem false h qi tr sg).broadcasts = [])
  ∧
  (∀ (enabled2 sttPresent : Bool) (c : AudioChunk) (rest : List (Option AudioChunk)),
      (sendAudioStep false enabled2 sttPresent (some c :: rest)).sent = [] ∧
      (sendAudioStep false enabled2 sttPresent (some c :: rest)).queue = rest)

/-- **C1 counterexample.**  The frames half of the claim fails: with the
flag false and the chunk `[0]` pending, the forwarding loop leaves the
chunk in the queue (it sleeps without dequeuing), so the frame is not
dropped. -/
theorem C1_counterexample : ¬ C1ClaimAsStated := by
  intro hc
  have h2 := (hc.2 true true [0] []).2
  simp [sendAudioStep] at h2

/-- **C1 (amended).**  Every item dequeued from the recognition-output
queue while the flag is false is discarded with no translation call, no
suggestion call, no history mutation and no broadcast; and while the flag
is false the forwarding loop sends no audio frame to the recognition
session — but frames are not dropped: the loop leaves the audio queue
untouched, so pending frames remain queued. -/
theorem C1_disabled_discards
    (h : List Turn) (qi : QItem) (tr : TranslateOutcome) (sg : SuggestOutcome)
    (enabled2 sttPresent : Bool) (q : List (Option AudioChunk)) :
    (processItem false h qi tr sg).translateCalled = false ∧
    (processItem false h qi tr sg).suggestCalled = false ∧
    (processItem false h qi tr sg).history = h ∧
    (processItem false h qi tr sg).broadcasts = [] ∧
    (sendAudioStep false enabled2 sttPresent q).sent = [] ∧
    (sendAudioStep false enabled2 sttPresent q).queue = q := by
  refine ⟨?_, ?_, ?_, ?_, ?_, ?_⟩ <;> simp [processItem, sendAudioStep]

/-! ### C3: reconnect behaviour of the `DeepgramSTT._run` loop -/

/-- Claim C3 as stated: a failed connect attempt is never fatal to the
run task — whatever the outcomes, the task never exits because of one
(retrying instead), including when the very first attempt fails. -/
def C3ClaimAsStated : Prop :=
  ∀ (initialOk : Bool) (iters : List (Bool × Bool)),
    RunEvent.taskExit ∉ dgRun initialOk iters

/-- **C3 counterexample.**  When the very first `_connect()` after
`start()` fails, `_run` returns immediately (`stt.py` lines 278-280): the
trace is exactly one failed attempt followed by task exit, with no retry. -/
theorem C3_counterexample : ¬ C3ClaimAsStated := by
  intro hc
  exact hc false [] (by simp [dgRun])

/-- `taskExit` is never produced by a loop iteration. -/
theorem taskExit_not_mem_runIter (c o : Bool) : RunEvent.taskExit ∉ runIter c o := by
  cases c <;> cases o <;> simp [runIter]

/-- **C3 (amended).**  Once the initial connect has succeeded, a failed
connect attempt is never fatal: the task never exits from the loop; an
iteration that observes the session disconnected waits 5 seconds, retries
`connect()`, and on failure waits a further 10 seconds before the loop
polls again; every observed-disconnected iteration contributes a connect
attempt to the trace.  If instead the very first attempt after `start()`
fails, the run task exits without any retry. -/
theorem C3_reconnect_with_backoff (iters : List (Bool × Bool)) (o : Bool) :
    RunEvent.taskExit ∉ dgRun true iters ∧
    runIter false o
      = [RunEvent.sleep 5, RunEvent.connectAttempt o]
          ++ (if o then [] else [RunEvent.sleep 10]) ∧
    ((false, o) ∈ iters → RunEvent.connectAttempt o ∈ dgRun true iters) ∧
    dgRun false [] = [RunEvent.connectAttempt false, RunEvent.taskExit] := by
  refine ⟨?_, by simp [runIter], ?_, by simp [dgRun]⟩
  · intro hmem
    simp only [dgRun, if_pos, List.mem_cons, List.mem_append] at hmem
    rcases hmem with h | h
    · exact RunEvent.noConfusion h
    · rcases h with h | h
      · rcases List.mem_flatten.mp h with ⟨l, hl, hmem'⟩
        rcases List.mem_map.mp hl with ⟨p, _, rfl⟩
        exact taskExit_not_mem_runIter p.1 p.2 hmem'
      · simp at h
  · intro hi
    simp only [dgRun, if_pos, List.mem_cons]
    right
    refine List.mem_append_left _ (List.mem_flatten.mpr ⟨runIter false o, ?_, ?_⟩)
    · exact List.mem_map.mpr ⟨(false, o), hi, rfl⟩
    · simp [runIter]

/-- Closed witness for C3 (amended) with one observed disconnection whose
reconnect attempt fails. -/
theorem C3_reconnect_with_backoff_witness :
    RunEvent.taskExit ∉ dgRun true [(false, false)] ∧
    runIter false false
      = [RunEvent.sleep 5, RunEvent.connectAttempt false]
          ++ (if false then [] else [RunEvent.sleep 10]) ∧
    ((false, false) ∈ [((false : Bool), (false : Bool))] →
        RunEvent.connectAttempt false ∈ dgRun true [(false, false)]) ∧
    dgRun false [] = [RunEvent.connectAttempt false, RunEvent.taskExit] :=
  C3_reconnect_with_backoff [(false, false)] false

/-! ### C8: `translate_text` on empty input and on failure -/

/-- Claim C8 as stated: every empty or whitespace-only input yields the
empty translation (pair `("", "")` with `return_detected_lang`, `""`
otherwise) with no network call — quantified over every translator state. -/
def C8ClaimAsStated : Prop :=
  ∀ (translatorInit : Bool) (text : String) (rdl : Bool) (net : DeepLOutcome),
    (text = "" ∨ text.trim = "") →
      translate_text translatorInit text rdl net
        = ((if rdl then TransValue.pair "" "" else TransValue.str ""), false)

/-- **C8 counterexample.**  `translate_text` checks `if not translator`
before the empty-input check (`translation.py` lines 52-57): with the
translator uninitialized, the empty input `""` returns `None`, not the
empty pair. -/
theorem C8_counterexample : ¬ C8ClaimAsStated := by
  intro hc
  have h := hc false "" true DeepLOutcome.deepLError (Or.inl rfl)
  simp [translate_text] at h

/-- **C8 (amended).**  Provided the translator client was initialized:
empty or whitespace-only input returns the empty translation (`("", "")`
with `return_detected_lang`, `""` otherwise) with no network call, and
every failure of the network call on non-empty input surfaces as `None`,
which is distinguishable from the empty-output values.  When the
translator is uninitialized, `translate_text` returns `None` for every
input, still without a network call. -/
theorem C8_empty_input_and_failures
    (text : String) (rdl : Bool) (net : DeepLOutcome)
    (hws : text = "" ∨ text.trim = "") :
    translate_text true text rdl net
      = ((if rdl then TransValue.pair "" "" else TransValue.str ""), false) ∧
    (∀ t : String, t ≠ "" → t.trim ≠ "" →
        translate_text true t rdl DeepLOutcome.deepLError = (TransValue.pynone, true) ∧
        translate_text true t rdl DeepLOutcome.otherError = (TransValue.pynone, true)) ∧
    (TransValue.pynone ≠ TransValue.pair "" "" ∧ TransValue.pynone ≠ TransValue.str "") ∧
    (∀ (b : Bool) (net' : DeepLOutcome),
        translate_text false text b net' = (TransValue.pynone, false)) := by
  refine ⟨?_, ?_, by simp, ?_⟩
  · rcases hws with rfl | hws
    · simp [translate_text]
    · simp [translate_text, hws]
  · intro t ht1 ht2
    constructor <;> simp [translate_text, ht1, ht2]
  · intro b net'
    simp [translate_text]

/-- Closed witness for C8 (amended) at the empty string. -/
theorem C8_empty_input_and_failures_witness :
    translate_text true "" true (DeepLOutcome.ok "x" "ES")
      = ((if true then TransValue.pair "" "" else TransValue.str ""), false) ∧
    (∀ t : String, t ≠ "" → t.trim ≠ "" →
        translate_text true t true DeepLOutcome.deepLError = (TransValue.pynone, true) ∧
        translate_text true t true DeepLOutcome.otherError = (TransValue.pynone, true)) ∧
    (TransValue.pynone ≠ TransValue.pair "" "" ∧ TransValue.pynone ≠ TransValue.str "") ∧
    (∀ (b : Bool) (net' : DeepLOutcome),
        translate_text false "" b net' = (TransValue.pynone, false)) :=
  C8_empty_input_and_failures "" true (DeepLOutcome.ok "x" "ES") (Or.inl rfl)

/-! ### C2: bounded FIFO conversation history -/

/-- In-place update of the last turn preserves the history length. -/
theorem setLastEnglish_length (l : List Turn) (e : String) :
    (setLastEnglish l e).length = l.length := by
  induction l with
  | nil => rfl
  | cons t ts ih =>
    cases ts with
    | nil => rfl
    | cons t' ts' =>
      simp only [setLastEnglish, List.length_cons]
      rw [ih]
      simp

/-- In-place update of the last turn only rewrites the last element. -/
theorem setLastEnglish_append (l : List Turn) (t : Turn) (e : String) :
    setLastEnglish (l ++ [t]) e = l ++ [{ t with english := e }] := by
  induction l with
  | nil => rfl
  | cons a l ih =>
    cases l with
    | nil => rfl
    | cons b l' =>
      show a :: setLastEnglish ((b :: l') ++ [t]) e
          = a :: ((b :: l') ++ [{ t with english := e }])
      rw [ih]

/-- `trimHistory` brings a history that grew by one back within the cap. -/
theorem trimHistory_length_le (h1 : List Turn)
    (hh : h1.length ≤ MAX_HISTORY_LENGTH + 1) :
    (trimHistory h1).length ≤ MAX_HISTORY_LENGTH := by
  unfold trimHistory
  by_cases hc : h1.length > MAX_HISTORY_LENGTH
  · simp only [if_pos hc, List.length_tail]
    omega
  · simp only [if_neg hc]
    omega

/-- The guarded last-turn update preserves the history length. -/
theorem updateLastIfNonempty_length (h : List Turn) (e : String) :
    (updateLastIfNonempty h e).length = h.length := by
  unfold updateLastIfNonempty
  by_cases hc : h ≠ []
  · simp only [if_pos hc, setLastEnglish_length]
  · simp only [if_neg hc]

/-- One `process_stt_output` iteration keeps the history within
`MAX_HISTORY_LENGTH` turns. -/
theorem processItem_history_length_le (enabled : Bool) (h : List Turn) (qi : QItem)
    (tr : TranslateOutcome) (sg : SuggestOutcome)
    (hh : h.length ≤ MAX_HISTORY_LENGTH) :
    (processItem enabled h qi tr sg).history.length ≤ MAX_HISTORY_LENGTH := by
  have htrim : ∀ t : Turn,
      (trimHistory (h ++ [t])).length ≤ MAX_HISTORY_LENGTH := by
    intro t
    apply trimHistory_length_le
    simp only [List.length_append, List.length_cons, List.length_nil]
    omega
  cases enabled with
  | false => simpa [processItem] using hh
  | true =>
    cases qi with
    | pynone => simpa [processItem] using hh
    | nondict => simpa [processItem] using hh
    | dict it0 =>
      by_cases hN : it0.type_.isNone = true
      · simpa [processItem, hN] using hh
      · by_cases hT : ((applyDefaults it0).type_ = some "transcript_data"
            && (applyDefaults it0).is_final.getD false) = true
        · by_cases hE : (applyDefaults it0).transcript.getD "" = ""
          · simpa [processItem, hN, hT, hE] using hh
          · cases tr with
            | raises =>
              simpa [processItem, hN, hT, hE] using htrim _
            | value v =>
              cases v with
              | none => simpa [processItem, hN, hT, hE] using htrim _
              | some p =>
                obtain ⟨e, d⟩ := p
                simpa [processItem, hN, hT, hE, updateLastIfNonempty_length]
                  using htrim _
        · simpa [processItem, hN, hT] using hh

/-- The whole `process_stt_output` loop over a sequence of dequeued items,
threading `conversation_history` through each iteration. -/
def processAll (enabled : Bool)
    (inputs : List (QItem × TranslateOutcome × SuggestOutcome))
    (history : List Turn) : List Turn :=
  inputs.foldl (fun h i => (processItem enabled h i.1 i.2.1 i.2.2).history) history

/-- **C2.** Over every processed sequence the conversation history holds at
most 10 turns; and appending a finalized non-empty transcript when the
history already holds 10 turns removes exactly the oldest turn (index 0),
keeping the remaining turns in arrival order followed by the new turn. -/
theorem C2_history_bounded_fifo :
    (∀ (enabled : Bool) (inputs : List (QItem × TranslateOutcome × SuggestOutcome))
        (h0 : List Turn),
        h0.length ≤ MAX_HISTORY_LENGTH →
        (processAll enabled inputs h0).length ≤ MAX_HISTORY_LENGTH)
    ∧
    (∀ (h : List Turn) (it : Item) (tr : TranslateOutcome) (sg : SuggestOutcome)
        (s : String),
        h.length = MAX_HISTORY_LENGTH →
        it.type_ = some "transcript_data" → it.is_final = some true →
        it.transcript = some s → s ≠ "" →
        ∃ t' : Turn,
          (processItem true h (QItem.dict it) tr sg).history = h.tail ++ [t'] ∧
          t'.speaker = it.speaker.getD "Unknown Speaker" ∧
          t'.original = s) := by
  constructor
  · intro enabled inputs h0 hh
    induction inputs generalizing h0 with
    | nil => exact hh
    | cons i is ih =>
      exact ih _ (processItem_history_length_le enabled h0 i.1 i.2.1 i.2.2 hh)
  · intro h it tr sg s hlen hty hfin htr hne
    rcases h with _ | ⟨a, h'⟩
    · simp [MAX_HISTORY_LENGTH] at hlen
    · have hlen' : h'.length = 9 := by
        simpa [MAX_HISTORY_LENGTH] using hlen
      cases tr with
      | raises =>
        refine ⟨⟨it.speaker.getD "Unknown Speaker", s, ""⟩, ?_, rfl, rfl⟩
        simp [processItem, applyDefaults, trimHistory, hty, hfin, htr, hne,
          MAX_HISTORY_LENGTH, hlen']
      | value v =>
        cases v with
        | none =>
          refine ⟨⟨it.speaker.getD "Unknown Speaker", s, ""⟩, ?_, rfl, rfl⟩
          simp [processItem, applyDefaults, trimHistory, hty, hfin, htr, hne,
            MAX_HISTORY_LENGTH, hlen']
        | some p =>
          obtain ⟨e, d⟩ := p
          refine ⟨⟨it.speaker.getD "Unknown Speaker", s, e⟩, ?_, rfl, rfl⟩
          simp [processItem, applyDefaults, trimHistory, updateLastIfNonempty,
            hty, hfin, htr, hne, MAX_HISTORY_LENGTH, hlen', setLastEnglish_append]

/-- Closed witness for C2: the empty run, and one eviction step from a full
ten-turn history. -/
theorem C2_history_bounded_fifo_witness :
    (processAll true [] []).length ≤ MAX_HISTORY_LENGTH ∧
    ∃ t' : Turn,
      (processItem true (List.replicate 10 ⟨"A", "x", ""⟩)
          (QItem.dict ⟨some "transcript_data", some true, some "hola", some "S",
            none, none, none, none⟩)
          TranslateOutcome.raises SuggestOutcome.raises).history
        = (List.replicate 10 (⟨"A", "x", ""⟩ : Turn)).tail ++ [t'] ∧
      t'.speaker = (Item.mk (some "transcript_data") (some true) (some "hola") (some "S")
          none none none none).speaker.getD "Unknown Speaker" ∧
      t'.original = "hola" :=
  ⟨C2_history_bounded_fifo.1 true [] [] (by decide),
   C2_history_bounded_fifo.2 (List.replicate 10 ⟨"A", "x", ""⟩) _ _ _ "hola"
     rfl rfl rfl rfl (by decide)⟩

/-! ### C5 and C6: the stop/start control plane -/

/-- **C5.** A `stop_processing` message while processing is enabled
performs, in this order: disable the gate, stop the recognition session,
clear the audio queue, clear the recognition-output queue, notify all
channels.  Both queues are empty afterwards, and a `start_processing`
immediately after re-enables processing with both queues still empty. -/
theorem C5_stop_then_start (s : BackendState)
    (hen : s.enabled = true) (hstt : s.sttPresent = true) (haq : s.audioQPresent = true) :
    (handleMessage s ControlMsg.stop_processing).2
      = [Event.setEnabled false, Event.sttStop, Event.clearAudioQueue,
         Event.clearSttOutQueue, Event.sendAll false] ∧
    (handleMessage s ControlMsg.stop_processing).1.enabled = false ∧
    (handleMessage s ControlMsg.stop_processing).1.audioQ = [] ∧
    (handleMessage s ControlMsg.stop_processing).1.sttOutQ = [] ∧
    (handleMessage (handleMessage s ControlMsg.stop_processing).1
        ControlMsg.start_processing).1.enabled = true ∧
    (handleMessage (handleMessage s ControlMsg.stop_processing).1
        ControlMsg.start_processing).1.audioQ = [] ∧
    (handleMessage (handleMessage s ControlMsg.stop_processing).1
        ControlMsg.start_processing).1.sttOutQ = [] := by
  refine ⟨?_, ?_, ?_, ?_, ?_, ?_, ?_⟩ <;> simp [handleMessage, hen, hstt, haq]

/-- Closed witness for C5 at a concrete state with stale items queued. -/
theorem C5_stop_then_start_witness :
    (handleMessage ⟨true, true, true, [some [1]], [QItem.pynone], []⟩
        ControlMsg.stop_processing).2
      = [Event.setEnabled false, Event.sttStop, Event.clearAudioQueue,
         Event.clearSttOutQueue, Event.sendAll false] ∧
    (handleMessage ⟨true, true, true, [some [1]], [QItem.pynone], []⟩
        ControlMsg.stop_processing).1.enabled = false ∧
    (handleMessage ⟨true, true, true, [some [1]], [QItem.pynone], []⟩
        ControlMsg.stop_processing).1.audioQ = [] ∧
    (handleMessage ⟨true, true, true, [some [1]], [QItem.pynone], []⟩
        ControlMsg.stop_processing).1.sttOutQ = [] ∧
    (handleMessage (handleMessage ⟨true, true, true, [some [1]], [QItem.pynone], []⟩
        ControlMsg.stop_processing).1 ControlMsg.start_processing).1.enabled = true ∧
    (handleMessage (handleMessage ⟨true, true, true, [some [1]], [QItem.pynone], []⟩
        ControlMsg.stop_processing).1 ControlMsg.start_processing).1.audioQ = [] ∧
    (handleMessage (handleMessage ⟨true, true, true, [some [1]], [QItem.pynone], []⟩
        ControlMsg.stop_processing).1 ControlMsg.start_processing).1.sttOutQ = [] :=
  C5_stop_then_start ⟨true, true, true, [some [1]], [QItem.pynone], []⟩ rfl rfl rfl

/-- **C6.** Calling `stop_processing` twice in a row performs the teardown
side effects only on the first call; the second call returns the state
unchanged and only sends the current status to the requesting channel. -/
theorem C6_stop_idempotent (s : BackendState)
    (hen : s.enabled = true) (hstt : s.sttPresent = true) (haq : s.audioQPresent = true) :
    Event.setEnabled false ∈ (handleMessage s ControlMsg.stop_processing).2 ∧
    Event.sttStop ∈ (handleMessage s ControlMsg.stop_processing).2 ∧
    Event.clearAudioQueue ∈ (handleMessage s ControlMsg.stop_processing).2 ∧
    Event.clearSttOutQueue ∈ (handleMessage s ControlMsg.stop_processing).2 ∧
    Event.sendAll false ∈ (handleMessage s ControlMsg.stop_processing).2 ∧
    handleMessage (handleMessage s ControlMsg.stop_processing).1 ControlMsg.stop_processing
      = ((handleMessage s ControlMsg.stop_processing).1, [Event.sendRequester false]) := by
  refine ⟨?_, ?_, ?_, ?_, ?_, ?_⟩ <;> simp [handleMessage, hen, hstt, haq]

/-- Closed witness for C6 at a concrete enabled state. -/
theorem C6_stop_idempotent_witness :
    Event.setEnabled false
      ∈ (handleMessage ⟨true, true, true, [], [], []⟩ ControlMsg.stop_processing).2 ∧
    Event.sttStop
      ∈ (handleMessage ⟨true, true, true, [], [], []⟩ ControlMsg.stop_processing).2 ∧
    Event.clearAudioQueue
      ∈ (handleMessage ⟨true, true, true, [], [], []⟩ ControlMsg.stop_processing).2 ∧
    Event.clearSttOutQueue
      ∈ (handleMessage ⟨true, true, true, [], [], []⟩ ControlMsg.stop_processing).2 ∧
    Event.sendAll false
      ∈ (handleMessage ⟨true, true, true, [], [], []⟩ ControlMsg.stop_processing).2 ∧
    handleMessage (handleMessage ⟨true, true, true, [], [], []⟩
        ControlMsg.stop_processing).1 ControlMsg.stop_processing
      = ((handleMessage ⟨true, true, true, [], [], []⟩ ControlMsg.stop_processing).1,
         [Event.sendRequester false]) :=
  C6_stop_idempotent ⟨true, true, true, [], [], []⟩ rfl rfl rfl

end LLT
